import Mathlib

/-!
Verification development for the airline administration webapp
(`database.py`, `src/pagination.py`, `src/filters.py`,
`src/lowercase_default_dict.py`).

Modelling conventions:
* Python strings are modelled as lists of Unicode code points (`PyStr`).
  `str.lower` / `str.upper` are modelled on the ASCII range, which covers
  every identifier, keyword and direction token handled by this code base.
* Stateful pieces (the per-table attribute cache) are modelled by explicit
  state passing; the storage layer's answer to the schema probe is passed
  in as an `Option (List PyStr)` (`none` = the probe query failed).
* Fallible Python calls are modelled with `Option`/explicit outcome flags.
-/

/-- A Python string, as its list of Unicode code points. -/
abbrev PyStr := List Nat

/-- Embed a Lean string literal as a `PyStr` (used for concrete inputs). -/
def ofString (s : String) : PyStr := s.data.map Char.toNat

/-- One code point of Python `str.lower` restricted to ASCII
(every identifier this program lowercases is ASCII). -/
def lowerChar (c : Nat) : Nat := if 65 ≤ c ∧ c ≤ 90 then c + 32 else c

/-- One code point of Python `str.upper` restricted to ASCII. -/
def upperChar (c : Nat) : Nat := if 97 ≤ c ∧ c ≤ 122 then c - 32 else c

/-- Python `s.lower()`. -/
def pyLower (s : PyStr) : PyStr := s.map lowerChar

/-- Python `s.upper()`. -/
def pyUpper (s : PyStr) : PyStr := s.map upperChar

/-- `src/filters.py`: the `Filters` enum. -/
inductive Filters
  | EQUALS
  | LESS_THAN
  | GREATER_THAN
  | NOT_EQUAL_TO
  | REGEX
  | LIKE
deriving DecidableEq

/-- The SQL token each `Filters` member carries (its `.value`). -/
def Filters.value : Filters → PyStr
  | .EQUALS => ofString "="
  | .LESS_THAN => ofString "<"
  | .GREATER_THAN => ofString ">"
  | .NOT_EQUAL_TO => ofString "<>"
  | .REGEX => ofString "~"
  | .LIKE => ofString "LIKE"

/-- A Python value bound into a query: either textual or non-textual
(numbers, dates and other non-`str` values behave identically in the
code under study, so one non-textual constructor suffices). -/
inductive SqlValue
  | str (s : PyStr)
  | num (n : Int)
deriving DecidableEq

/-- `database.py` `SqlEntry`: an ordered mapping column-name -> value. -/
abbrev SqlEntry := List (PyStr × SqlValue)

/-- `database.py` `SqlResult`. -/
abbrev SqlResult := List SqlEntry

/-!  ## Pagination (`src/pagination.py`)  -/

/-- The `Pagination` object of `src/pagination.py`. -/
structure Pagination where
  page : Int
  per_page : Nat
  total : Nat
  pages : Nat
  has_prev : Bool
  has_next : Bool
  max_jump : Nat
deriving DecidableEq

/-- `Pagination.__init__`.  `math.ceil(total / per)` is `(total + per - 1) / per`
for a positive `per`; the (unused by callers) `max_jump` keyword default is 5.
`page_no` is an `Int` because callers can pass 0 or negative page numbers.
A zero `tickets_per_page` raises `ZeroDivisionError` in Python and is outside
the model (all theorems assume it positive). -/
def Pagination.init (page_no : Int) (tickets_per_page : Nat)
    (total_tickets : Nat) : Pagination :=
  let num_pages : Nat := (total_tickets + tickets_per_page - 1) / tickets_per_page
  { page := min (num_pages : Int) (max 1 page_no)
    per_page := tickets_per_page
    total := total_tickets
    pages := num_pages
    has_prev := decide (1 < page_no)
    has_next := decide (page_no < (num_pages : Int))
    max_jump := 5 }

/-- C1 (counterexample): the claim says `compute(page=-5, size=50, total=0)`
yields `effective_page = 1`; the code yields `effective_page = 0`
(`min(0, max(1, -5)) = 0`), so the claimed invariant `1 <= effective_page`
also fails there. -/
theorem pagination_empty_total_gives_page_zero :
    (Pagination.init (-5) 50 0).page = 0 ∧ ((0 : Int) ≠ 1) := by
  constructor
  · rfl
  · decide

/-- C1 (amended): the effective page is `min(total_pages, max(1, requested))`
unconditionally — there is no special case for `total_pages = 0`, where the
effective page is `0`, not `1`; consequently the invariant is
`min(1, total_pages) ≤ effective_page ≤ max(1, total_pages)`. -/
theorem pagination_effective_page_clamped (page_no : Int)
    (per total : Nat) (hper : 0 < per) :
    (Pagination.init page_no per total).page
      = min ((Pagination.init page_no per total).pages : Int) (max 1 page_no)
    ∧ ((Pagination.init page_no per total).pages = 0 →
        (Pagination.init page_no per total).page = 0)
    ∧ min 1 ((Pagination.init page_no per total).pages : Int)
        ≤ (Pagination.init page_no per total).page
    ∧ (Pagination.init page_no per total).page
        ≤ max 1 ((Pagination.init page_no per total).pages : Int) := by
  refine ⟨rfl, ?_, ?_, ?_⟩ <;>
    · simp only [Pagination.init]
      generalize (total + per - 1) / per = q
      omega

/-- C1 witness: the amended statement at the concrete input
`(page=-5, size=50, total=0)`. -/
theorem pagination_effective_page_clamped_witness :
    0 < 50
    ∧ ((Pagination.init (-5) 50 0).page
        = min ((Pagination.init (-5) 50 0).pages : Int) (max 1 (-5))
      ∧ ((Pagination.init (-5) 50 0).pages = 0 →
          (Pagination.init (-5) 50 0).page = 0)
      ∧ min 1 ((Pagination.init (-5) 50 0).pages : Int)
          ≤ (Pagination.init (-5) 50 0).page
      ∧ (Pagination.init (-5) 50 0).page
          ≤ max 1 ((Pagination.init (-5) 50 0).pages : Int)) :=
  ⟨by decide, pagination_effective_page_clamped (-5) 50 0 (by decide)⟩

/-- C7: for a positive page size, `pages` is the ceiling of
`total / per` (stated both via Mathlib's ceiling division and by the
defining pair of inequalities `total ≤ per * pages < total + per`),
zero total gives zero pages, and the prev/next flags are computed from the
requested page: `has_prev ↔ requested > 1`, `has_next ↔ requested < pages`. -/
theorem pagination_pages_ceiling_and_flags (page_no : Int)
    (per total : Nat) (hper : 0 < per) :
    (Pagination.init page_no per total).pages = total ⌈/⌉ per
    ∧ total ≤ per * (Pagination.init page_no per total).pages
    ∧ per * (Pagination.init page_no per total).pages < total + per
    ∧ (total = 0 → (Pagination.init page_no per total).pages = 0)
    ∧ ((Pagination.init page_no per total).has_prev = true ↔ 1 < page_no)
    ∧ ((Pagination.init page_no per total).has_next = true ↔
        page_no < ((Pagination.init page_no per total).pages : Int)) := by
  have hceil : (Pagination.init page_no per total).pages = total ⌈/⌉ per := rfl
  have hle : total ≤ per * (total ⌈/⌉ per) :=
    (ceilDiv_le_iff_le_mul hper).1 le_rfl
  refine ⟨hceil, ?_, ?_, ?_, ?_, ?_⟩
  · simpa [hceil] using hle
  · have hdv := Nat.div_mul_le_self (total + per - 1) per
    have hcm : per * ((total + per - 1) / per)
        = ((total + per - 1) / per) * per := Nat.mul_comm _ _
    simp only [Pagination.init]
    omega
  · intro h0
    subst h0
    show (0 + per - 1) / per = 0
    exact Nat.div_eq_of_lt (by omega)
  · simp [Pagination.init]
  · simp [Pagination.init]

/-- C7 witness: the statement at `(page=2, size=50, total=120)`
(`pages = 3`, `has_prev`, `has_next`). -/
theorem pagination_pages_ceiling_and_flags_witness :
    0 < 50
    ∧ ((Pagination.init 2 50 120).pages = 120 ⌈/⌉ 50
      ∧ 120 ≤ 50 * (Pagination.init 2 50 120).pages
      ∧ 50 * (Pagination.init 2 50 120).pages < 120 + 50
      ∧ (120 = 0 → (Pagination.init 2 50 120).pages = 0)
      ∧ ((Pagination.init 2 50 120).has_prev = true ↔ 1 < (2 : Int))
      ∧ ((Pagination.init 2 50 120).has_next = true ↔
          (2 : Int) < ((Pagination.init 2 50 120).pages : Int))) :=
  ⟨by decide, pagination_pages_ceiling_and_flags 2 50 120 (by decide)⟩

/-!  ## Attribute validation, sort resolution and the query builder
(`database.py`)

The per-table attribute catalog is stateful (see the cache model further
below).  The pure functions here take a `catalog : List PyStr` parameter
standing for the value of `get_table_attributes(table)` in the current
process state (a list of lower-cased column names in table order).  -/

/-- `valid_table_attribute` (`database.py` line 301):
`attribute.lower() in get_table_attributes(table)`. -/
def valid_table_attribute (catalog : List PyStr) (attr : PyStr) : Bool :=
  decide (pyLower attr ∈ catalog)

/-- `validate_sort_params` (`database.py` lines 29-40).  A non-string
Python `sort_by`/`sort_dir` (e.g. `None`) is modelled as `none`. -/
def validate_sort_params (catalog : List PyStr)
    (sort_by sort_dir : Option PyStr) : Option (PyStr × PyStr) :=
  match sort_by with
  | none => none
  | some sb =>
    if valid_table_attribute catalog sb then
      let sd : PyStr :=
        match sort_dir with
        | none => ofString "asc"
        | some d =>
          if pyLower d = ofString "asc" ∨ pyLower d = ofString "desc" then d
          else ofString "asc"
      some (pyLower sb, pyLower sd)
    else none

/-- `complete_order_by` (`database.py` lines 43-69).  Python's
`list.remove` removes the first occurrence, i.e. `List.erase`, and is
guarded by an `in` test exactly as in the source. -/
def complete_order_by (catalog : List PyStr)
    (sort_by sort_dir : Option PyStr) : PyStr :=
  match catalog with
  | [] => []
  | a0 :: _ =>
    let p := (validate_sort_params catalog sort_by sort_dir).getD
      (a0, ofString "asc")
    let attrs := if p.1 ∈ catalog then catalog.erase p.1 else catalog
    ofString "ORDER BY " ++
      List.intercalate (ofString ", ")
        ((p.1 ++ ofString " " ++ pyUpper p.2) ::
          attrs.map (fun k => k ++ ofString " ASC"))

/-- The filter-value normalisation step of `select_from_table_by_filter`
(`database.py` lines 544-557): returns the attribute reference used in the
WHERE clause and the bound value. -/
def normalize_filter (attr : PyStr) (filter_type : Filters)
    (filter_val : SqlValue) (no_lower : Bool) : PyStr × SqlValue :=
  match filter_val with
  | .str s =>
    if no_lower then (attr, .str s)
    else
      let s1 := pyLower s
      let s2 := if filter_type = Filters.LIKE
        then ofString "%" ++ s1 ++ ofString "%" else s1
      (ofString "lower(" ++ attr ++ ofString ")", .str s2)
  | v => (attr, v)

/-- Python `str(n)` for an integer LIMIT/OFFSET. -/
def intToStr (n : Int) : PyStr := ofString (toString n)

/-- The SQL-building portion of `select_from_table_by_filter`
(`database.py` lines 520-583): returns `none` when the attribute fails
catalog validation (source line 541-542), otherwise the rendered SQL text
(whitespace normalised to single spaces) with the single bound value. -/
def select_from_table_by_filter
    (select_operation table : PyStr) (catalog : List PyStr)
    (attr : PyStr) (filter_type : Filters) (filter_val : SqlValue)
    (lim off : Option Int) (sort_by sort_dir : Option PyStr)
    (complete_sort : Bool) (no_lower : Bool) : Option (PyStr × SqlValue) :=
  if valid_table_attribute catalog attr then
    let nv := normalize_filter attr filter_type filter_val no_lower
    let sort_query : PyStr :=
      match validate_sort_params catalog sort_by sort_dir with
      | none => []
      | some _ =>
        if complete_sort then complete_order_by catalog sort_by sort_dir
        else ofString "ORDER BY " ++ sort_by.getD [] ++ ofString " "
          ++ sort_dir.getD []
    let sql := ofString "SELECT " ++ select_operation ++ ofString " FROM "
      ++ table ++ ofString " WHERE " ++ nv.1 ++ ofString " "
      ++ filter_type.value ++ ofString " %s " ++ sort_query
    let sql := match lim with
      | some n => sql ++ ofString " LIMIT " ++ intToStr n
      | none => sql
    let sql := match off with
      | some n => sql ++ ofString " OFFSET " ++ intToStr n
      | none => sql
    some (sql, nv.2)
  else none

/-- C6: the filter value normaliser: a textual value with `no_lower = false`
gets a case-folded attribute reference and a lower-cased value, wrapped in
`%...%` exactly when the operator is LIKE; a textual value with
`no_lower = true`, or a non-textual value, passes through unmodified. -/
theorem normalize_filter_policy (a : PyStr) (f : Filters) (s : PyStr)
    (n : Int) (nl : Bool) :
    normalize_filter a f (.str s) false
      = (ofString "lower(" ++ a ++ ofString ")",
         .str (if f = Filters.LIKE
           then ofString "%" ++ pyLower s ++ ofString "%" else pyLower s))
    ∧ normalize_filter a f (.str s) true = (a, .str s)
    ∧ normalize_filter a f (.num n) nl = (a, .num n) :=
  ⟨rfl, rfl, rfl⟩

/-- C2 (counterexample): with catalog `[a, b]`, requesting the valid sort
column `b` together with the unparsable direction `bogus` resolves to
`(b, asc)` — the sort column is kept, not reset to the first catalog
attribute — and the resulting ORDER BY differs from the one produced when
no sort is requested at all. -/
theorem sort_dir_fallback_keeps_column :
    validate_sort_params [ofString "a", ofString "b"]
        (some (ofString "b")) (some (ofString "bogus"))
      = some (ofString "b", ofString "asc")
    ∧ (some (ofString "b", ofString "asc") : Option (PyStr × PyStr))
        ≠ some (ofString "a", ofString "asc")
    ∧ complete_order_by [ofString "a", ofString "b"]
        (some (ofString "b")) (some (ofString "bogus"))
      ≠ complete_order_by [ofString "a", ofString "b"] none none := by
  refine ⟨by decide, by decide, by decide⟩

/-- C2 (amended): only an invalid `sort_by` triggers the full fallback
`(first attribute, asc)` (and then yields exactly the directive of a
request with no sort at all); a valid `sort_by` with an unparsable
`sort_dir` keeps the requested column and only defaults the direction to
`asc`. -/
theorem sort_resolver_fallback (catalog : List PyStr)
    (sort_by sort_dir : Option PyStr) :
    ((∀ sb, sort_by = some sb → pyLower sb ∉ catalog) →
      validate_sort_params catalog sort_by sort_dir = none
      ∧ complete_order_by catalog sort_by sort_dir
          = complete_order_by catalog none none)
    ∧ (∀ sb d, sort_by = some sb → pyLower sb ∈ catalog →
        sort_dir = some d → pyLower d ≠ ofString "asc" →
        pyLower d ≠ ofString "desc" →
        validate_sort_params catalog sort_by sort_dir
          = some (pyLower sb, ofString "asc")) := by
  constructor
  · intro hinv
    have hv : validate_sort_params catalog sort_by sort_dir = none := by
      cases sort_by with
      | none => rfl
      | some sb =>
        have h := hinv sb rfl
        simp [validate_sort_params, valid_table_attribute, h]
    refine ⟨hv, ?_⟩
    cases catalog with
    | nil => rfl
    | cons a0 rest =>
      have hv2 : validate_sort_params (a0 :: rest) none none = none := rfl
      simp only [complete_order_by, hv, hv2]
  · intro sb d hsb hmem hd h1 h2
    subst hsb; subst hd
    have hasc : pyLower (ofString "asc") = ofString "asc" := by decide
    simp [validate_sort_params, valid_table_attribute, hmem, h1, h2, hasc]

/-- C2 witness: requesting sort by `zzz` (not in catalog `[a]`) with
direction `desc` yields no validated pair and the same ORDER BY as
requesting no sort at all. -/
theorem sort_resolver_fallback_witness :
    validate_sort_params [ofString "a"]
        (some (ofString "zzz")) (some (ofString "desc")) = none
    ∧ complete_order_by [ofString "a"]
        (some (ofString "zzz")) (some (ofString "desc"))
      = complete_order_by [ofString "a"] none none :=
  (sort_resolver_fallback [ofString "a"] (some (ofString "zzz"))
      (some (ofString "desc"))).1
    (fun sb hsb => by cases hsb; decide)

/-- Helper: a list is a permutation of any member consed onto the list
with that member erased (stated over the ambient `BEq PyStr` so it matches
`List.erase` as it appears in `complete_order_by`). -/
theorem perm_cons_erase_mem {l : List PyStr} {a : PyStr} (h : a ∈ l) :
    l.Perm (a :: l.erase a) := by
  induction l with
  | nil => cases h
  | cons b t ih =>
    by_cases hba : b = a
    · subst hba
      simp [List.erase_cons_head]
    · have ht : a ∈ t := by
        rcases List.mem_cons.mp h with h1 | h2
        · exact absurd h1.symm hba
        · exact h2
      have he : (b :: t).erase a = b :: t.erase a := by
        simp [List.erase_cons, hba]
      rw [he]
      exact ((ih ht).cons b).trans (List.Perm.swap a b (t.erase a))

/-- C5: with a non-empty catalog and a sort request that resolves to a
valid `(column, direction)`, the produced clause is exactly
`ORDER BY <column> <DIR>, <remaining catalog columns in order, each ASC>`,
and the columns referenced are a permutation of (hence all of) the
catalog. -/
theorem complete_order_by_total (catalog : List PyStr)
    (sort_by sort_dir : Option PyStr) (psb psd : PyStr)
    (hcat : catalog ≠ [])
    (hv : validate_sort_params catalog sort_by sort_dir = some (psb, psd)) :
    complete_order_by catalog sort_by sort_dir
      = ofString "ORDER BY " ++
          List.intercalate (ofString ", ")
            ((psb ++ ofString " " ++ pyUpper psd) ::
              (catalog.erase psb).map (fun k => k ++ ofString " ASC"))
    ∧ (psb :: catalog.erase psb).Perm catalog := by
  have hmem : psb ∈ catalog := by
    cases hsb : sort_by with
    | none =>
      rw [hsb] at hv
      exact absurd hv (by simp [validate_sort_params])
    | some sb =>
      rw [hsb] at hv
      by_cases hvt : valid_table_attribute catalog sb = true
      · have hm : pyLower sb ∈ catalog := by
          simpa [valid_table_attribute] using hvt
        have hpsb : pyLower sb = psb := by
          simp [validate_sort_params, hvt] at hv
          exact hv.1
        exact hpsb ▸ hm
      · exact absurd hv (by simp [validate_sort_params, hvt])
  obtain ⟨a0, rest, rfl⟩ := List.exists_cons_of_ne_nil hcat
  constructor
  · simp [complete_order_by, hv, hmem]
  · exact (perm_cons_erase_mem hmem).symm

/-- C5 witness: catalog `[a, b, c]` with request `(b, desc)` produces
exactly the clause `ORDER BY b DESC, a ASC, c ASC`. -/
theorem complete_order_by_total_witness :
    (complete_order_by [ofString "a", ofString "b", ofString "c"]
        (some (ofString "b")) (some (ofString "desc"))
      = ofString "ORDER BY " ++
          List.intercalate (ofString ", ")
            ((ofString "b" ++ ofString " " ++ pyUpper (ofString "desc")) ::
              (([ofString "a", ofString "b", ofString "c"] :
                  List PyStr).erase (ofString "b")).map
                (fun k => k ++ ofString " ASC"))
      ∧ (ofString "b" :: ([ofString "a", ofString "b", ofString "c"] :
            List PyStr).erase (ofString "b")).Perm
          [ofString "a", ofString "b", ofString "c"])
    ∧ complete_order_by [ofString "a", ofString "b", ofString "c"]
        (some (ofString "b")) (some (ofString "desc"))
      = ofString "ORDER BY b DESC, a ASC, c ASC" :=
  ⟨complete_order_by_total [ofString "a", ofString "b", ofString "c"]
      (some (ofString "b")) (some (ofString "desc"))
      (ofString "b") (ofString "desc") (by decide) (by decide),
   by decide⟩

/-- The attribute catalog of the `users` table (columns of `Users` plus
their schema order, lower-cased), used as a concrete catalog. -/
def usersCatalog : List PyStr :=
  [ofString "userid", ofString "firstname", ofString "lastname",
   ofString "userroleid", ofString "password"]

/-- C4: `valid_table_attribute` holds exactly when the lower-cased name is
in the catalog, and for any name outside the catalog the query builder
returns `none` — no SQL text is built at all. -/
theorem valid_attribute_guards_query (catalog : List PyStr) (a : PyStr)
    (selOp tbl : PyStr) (ftype : Filters) (fval : SqlValue)
    (lim off : Option Int) (sb sd : Option PyStr) (cs nl : Bool) :
    (valid_table_attribute catalog a = true ↔ pyLower a ∈ catalog)
    ∧ (pyLower a ∉ catalog →
        select_from_table_by_filter selOp tbl catalog a ftype fval
          lim off sb sd cs nl = none) := by
  constructor
  · simp [valid_table_attribute]
  · intro h
    simp [select_from_table_by_filter, valid_table_attribute, h]

/-- C4 witness: `userid; DROP TABLE users` is rejected against the `users`
catalog and the query builder produces no SQL for it. -/
theorem valid_attribute_guards_query_witness :
    pyLower (ofString "userid; DROP TABLE users") ∉ usersCatalog
    ∧ select_from_table_by_filter (ofString "*") (ofString "users")
        usersCatalog (ofString "userid; DROP TABLE users")
        Filters.EQUALS (SqlValue.str (ofString "x"))
        none none none none true false = none :=
  ⟨by decide,
   (valid_attribute_guards_query usersCatalog
      (ofString "userid; DROP TABLE users") (ofString "*") (ofString "users")
      Filters.EQUALS (SqlValue.str (ofString "x"))
      none none none none true false).2 (by decide)⟩

/-!  ## The per-table attribute cache
(`src/lowercase_default_dict.py`, `database.py` lines 26, 305-328)

The cache `table_attributes` is a `LowercaseDefaultDict(list)`: an
association container that lower-cases the key on both read and write,
and reads a missing key as the empty list (the real `defaultdict` also
stores the default on a miss, which these two operations cannot
distinguish from leaving it missing).  The storage layer's answer to one
schema probe is the parameter `probe : Option (List PyStr)`
(`none` = the probe's `execute_and_fetch` returned `None`). -/

abbrev LowercaseDict := List (PyStr × List PyStr)

/-- `LowercaseDefaultDict.__getitem__`: looks up the lower-cased key,
missing keys read as the `defaultdict(list)` default `[]`. -/
def dictGet (d : LowercaseDict) (k : PyStr) : List PyStr :=
  (List.lookup (pyLower k) d).getD []

/-- `LowercaseDefaultDict.__setitem__`: stores under the lower-cased key. -/
def dictSet (d : LowercaseDict) (k : PyStr) (v : List PyStr) : LowercaseDict :=
  (pyLower k, v) :: d

/-- `fetch_table_attributes` (`database.py` lines 313-328): on probe
failure leaves the cache alone and reports `False`; on success stores the
lower-cased column names and reports `True`. -/
def fetch_table_attributes (probe : Option (List PyStr))
    (cache : LowercaseDict) (t : PyStr) : LowercaseDict × Bool :=
  match probe with
  | none => (cache, false)
  | some desc => (dictSet cache t (desc.map pyLower), true)

/-- `get_table_attributes` (`database.py` lines 305-310); the third
component records whether the storage layer was probed on this call. -/
def get_table_attributes (probe : Option (List PyStr))
    (cache : LowercaseDict) (t : PyStr) :
    List PyStr × LowercaseDict × Bool :=
  if dictGet cache t = [] then
    let fc := fetch_table_attributes probe cache t
    (dictGet fc.1 t, fc.1, true)
  else (dictGet cache t, cache, false)

/-- A sequence of `get_table_attributes` calls for one table under
single-threaded use, one probe outcome per call (consumed only when the
call actually probes): returns the per-call results, the final cache, and
how many calls probed storage. -/
def runCalls (t : PyStr) :
    List (Option (List PyStr)) → LowercaseDict →
    List (List PyStr) × LowercaseDict × Nat
  | [], cache => ([], cache, 0)
  | p :: ps, cache =>
    let r := get_table_attributes p cache t
    let rest := runCalls t ps r.2.1
    (r.1 :: rest.1, rest.2.1, (if r.2.2 then 1 else 0) + rest.2.2)

/-- Helper: reading back the key just written. -/
theorem dictGet_dictSet_same (d : LowercaseDict) (k : PyStr)
    (v : List PyStr) : dictGet (dictSet d k v) k = v := by
  simp [dictGet, dictSet, List.lookup]

/-- Helper: once the cache holds a non-empty sequence for `t`, every later
call returns it unchanged and never probes storage. -/
theorem runCalls_cached (t : PyStr) (v : List PyStr) (hne : v ≠ []) :
    ∀ (ps : List (Option (List PyStr))) (cache : LowercaseDict),
      dictGet cache t = v →
      runCalls t ps cache = (List.replicate ps.length v, cache, 0) := by
  intro ps
  induction ps with
  | nil =>
    intro cache h
    simp [runCalls]
  | cons p ps ih =>
    intro cache h
    have hget : get_table_attributes p cache t = (v, cache, false) := by
      simp [get_table_attributes, h, hne]
    simp [runCalls, hget, ih cache h, List.replicate_succ]

/-- C8: from a state where the table's cache entry is empty, a successful
probe answering a non-empty column list is performed exactly once: each of
the `1 + n` calls returns the identical lower-cased sequence and no later
call touches storage, whatever the later probe outcomes would be.  A
failed probe returns the empty sequence and leaves the cache unchanged,
so the next call (with any probe outcome `p2`) probes storage again. -/
theorem catalog_memoization (cache : LowercaseDict) (t : PyStr)
    (cols : List PyStr) (ps : List (Option (List PyStr)))
    (p2 : Option (List PyStr))
    (h0 : dictGet cache t = []) (hcols : cols ≠ []) :
    (runCalls t (some cols :: ps) cache).1
      = List.replicate (ps.length + 1) (cols.map pyLower)
    ∧ (runCalls t (some cols :: ps) cache).2.2 = 1
    ∧ (get_table_attributes none cache t).1 = []
    ∧ (get_table_attributes none cache t).2.1 = cache
    ∧ (get_table_attributes p2 (get_table_attributes none cache t).2.1
        t).2.2 = true := by
  have hmapne : cols.map pyLower ≠ [] := by
    cases cols with
    | nil => exact absurd rfl hcols
    | cons c cs => simp
  have hset : dictGet (dictSet cache t (cols.map pyLower)) t
      = cols.map pyLower := dictGet_dictSet_same cache t (cols.map pyLower)
  have hfirst : get_table_attributes (some cols) cache t
      = (cols.map pyLower, dictSet cache t (cols.map pyLower), true) := by
    simp [get_table_attributes, fetch_table_attributes, h0, hset]
  have hrest := runCalls_cached t (cols.map pyLower) hmapne ps
    (dictSet cache t (cols.map pyLower)) hset
  have hfail : get_table_attributes none cache t = ([], cache, true) := by
    simp [get_table_attributes, fetch_table_attributes, h0]
  refine ⟨?_, ?_, ?_, ?_, ?_⟩
  · simp [runCalls, hfirst, hrest, List.replicate_succ]
  · simp [runCalls, hfirst, hrest]
  · simp [hfail]
  · simp [hfail]
  · rw [hfail]
    simp [get_table_attributes, fetch_table_attributes, h0]

/-- C8 witness: empty cache, table `Users`, first probe succeeds with
columns `[UserID, FirstName]`, two further calls. -/
theorem catalog_memoization_witness :
    dictGet [] (ofString "Users") = []
    ∧ ([ofString "UserID", ofString "FirstName"] : List PyStr) ≠ []
    ∧ ((runCalls (ofString "Users")
          (some [ofString "UserID", ofString "FirstName"] ::
            [none, some [ofString "zzz"]]) []).1
        = List.replicate (2 + 1)
            ([ofString "UserID", ofString "FirstName"].map pyLower)
      ∧ (runCalls (ofString "Users")
          (some [ofString "UserID", ofString "FirstName"] ::
            [none, some [ofString "zzz"]]) []).2.2 = 1
      ∧ (get_table_attributes none [] (ofString "Users")).1 = []
      ∧ (get_table_attributes none [] (ofString "Users")).2.1 = []
      ∧ (get_table_attributes (some [ofString "UserID"])
          (get_table_attributes none [] (ofString "Users")).2.1
          (ofString "Users")).2.2 = true) :=
  ⟨by decide, by decide,
   catalog_memoization [] (ofString "Users")
     [ofString "UserID", ofString "FirstName"]
     [none, some [ofString "zzz"]] (some [ofString "UserID"])
     (by decide) (by decide)⟩

/-- Helper: ASCII lower-casing one code point is idempotent. -/
theorem lowerChar_lowerChar (c : Nat) :
    lowerChar (lowerChar c) = lowerChar c := by
  unfold lowerChar
  split_ifs <;> omega

/-- Helper: `str.lower` is idempotent. -/
theorem pyLower_idem (s : PyStr) : pyLower (pyLower s) = pyLower s := by
  simp [pyLower, List.map_map, Function.comp_def, lowerChar_lowerChar]

/-- C10: the attribute cache is keyed case-insensitively: whenever two
table names lower-case to the same string (in particular `t` and
`t.lower()`, by idempotence of lower-casing), reads, writes and whole
`get_table_attributes` calls behave identically on them. -/
theorem lowercase_dict_key_folding (d : LowercaseDict) (s t : PyStr)
    (v : List PyStr) (probe : Option (List PyStr))
    (h : pyLower s = pyLower t) :
    dictGet d s = dictGet d t
    ∧ dictSet d s v = dictSet d t v
    ∧ get_table_attributes probe d s = get_table_attributes probe d t
    ∧ pyLower (pyLower s) = pyLower s := by
  refine ⟨?_, ?_, ?_, pyLower_idem s⟩
  · simp [dictGet, h]
  · simp [dictSet, h]
  · simp [get_table_attributes, fetch_table_attributes, dictGet, dictSet, h]

/-- C10 witness: `Users` versus `users` on a populated cache. -/
theorem lowercase_dict_key_folding_witness :
    pyLower (ofString "Users") = pyLower (ofString "users")
    ∧ (dictGet [(ofString "users", [ofString "userid"])] (ofString "Users")
        = dictGet [(ofString "users", [ofString "userid"])] (ofString "users")
      ∧ dictSet [(ofString "users", [ofString "userid"])] (ofString "Users")
            [ofString "x"]
        = dictSet [(ofString "users", [ofString "userid"])] (ofString "users")
            [ofString "x"]
      ∧ get_table_attributes none [(ofString "users", [ofString "userid"])]
            (ofString "Users")
        = get_table_attributes none [(ofString "users", [ofString "userid"])]
            (ofString "users")
      ∧ pyLower (pyLower (ofString "Users")) = pyLower (ofString "Users")) :=
  ⟨by decide,
   lowercase_dict_key_folding [(ofString "users", [ofString "userid"])]
     (ofString "Users") (ofString "users") [ofString "x"] none (by decide)⟩

/-!  ## `execute_and_fetch` (`database.py` lines 640-670) and
`print_sql_string` (lines 673-682)

Control flow of the source, in order:
1. `conn = database_connect()`; if it is `None`, return `None`.
2. `cursor = conn.cursor()` (a pure constructor in pg8000 — modelled as
   non-raising).
3. `print_sql_string(sql, params)` — this runs BEFORE the `try` block.  It
   evaluates `sql.replace("%s", "'...'").format(*params)`, which raises
   `IndexError` whenever `sql` contains more `%s` placeholders than there
   are `params` (none of the repository's SQL texts contain literal
   braces, so that is the only way it raises).  Such an exception
   propagates to the caller with the connection still open.
4. The `try` block: `cursor.execute`, the fetcher, `print(sql_res[:5])`
   (which raises — and is caught — when the fetcher returned `None`),
   and `conn.commit()` when `commit=True`.  Every exception here is
   caught, after which `cursor.close()`/`conn.close()` run and `sql_res`
   is returned: an exception raised by `commit` leaves `sql_res` holding
   the already-fetched value.

The environment records which fallible steps raise; the fetcher outcome is
`none` when the fetcher itself raises, `some r` when it returns `r`
(`r = none` models `dict_fetchall` returning `None`). -/

/-- Resource events observable from a call. -/
inductive DbEvent
  | acquireConn
  | closeCursor
  | closeConn
deriving DecidableEq

/-- Outcomes of the fallible steps inside one `execute_and_fetch` call. -/
structure DbEnv where
  connOk : Bool
  execRaises : Bool
  fetchOutcome : Option (Option SqlResult)
  commitRaises : Bool
deriving DecidableEq

/-- How one call ends: a returned Python value, or an exception
propagating to the caller. -/
inductive ExecResult
  | ret (v : Option SqlResult)
  | exn
deriving DecidableEq

/-- The number of `%s` placeholders in a SQL text (non-overlapping,
left to right, as `str.replace` finds them); `%` is 37, `s` is 115. -/
def countPlaceholders : PyStr → Nat
  | 37 :: 115 :: rest => countPlaceholders rest + 1
  | _ :: rest => countPlaceholders rest
  | [] => 0

/-- The `try` block of `execute_and_fetch`: the value held by `sql_res`
when control reaches the close calls. -/
def tryBody (env : DbEnv) (commit : Bool) : Option SqlResult :=
  if env.execRaises then none
  else
    match env.fetchOutcome with
    | none => none
    | some none => none
    | some (some rows) =>
      if commit && env.commitRaises then some rows
      else some rows

/-- `execute_and_fetch`: result plus the resource events of the call. -/
def execute_and_fetch (env : DbEnv) (sql : PyStr)
    (params : List SqlValue) (commit : Bool) :
    ExecResult × List DbEvent :=
  if env.connOk = false then (.ret none, [])
  else if params.length < countPlaceholders sql then
    (.exn, [.acquireConn])
  else
    (.ret (tryBody env commit),
     [.acquireConn, .closeCursor, .closeConn])

/-- `dict_fetchall` (`database.py` lines 591-612): `None` when the cursor
has no result description, otherwise one ordered mapping per row, keyed by
the lower-cased column names. -/
def dict_fetchall (description : Option (List PyStr))
    (rows : List (List SqlValue)) : Option SqlResult :=
  match description with
  | none => none
  | some desc => some (rows.map (fun row => (desc.map pyLower).zip row))

/-- C3 (counterexample): a write with `commit=True` whose `conn.commit()`
raises (e.g. connectivity lost at commit time): the exception is caught,
but the already-fetched value — here the empty list `dict_fetchone`
produces for an UPDATE — is returned instead of `None`, so this execution
error is indistinguishable from a zero-row success. -/
theorem commit_error_not_none :
    execute_and_fetch ⟨true, false, some (some []), true⟩
        (ofString "UPDATE tickets SET price = %s WHERE TicketID = %s")
        [SqlValue.num 1, SqlValue.num 2] true
      = (ExecResult.ret (some []),
         [DbEvent.acquireConn, DbEvent.closeCursor, DbEvent.closeConn])
    ∧ ExecResult.ret (some ([] : SqlResult)) ≠ ExecResult.ret none := by
  refine ⟨by decide, by decide⟩

/-- C3 (amended): failures of connect, execute or fetch surface as `None`,
and a successful fetch — zero rows included, e.g. `dict_fetchall` with a
description and no rows, which yields `[]` — surfaces as that value, so
those two outcomes stay distinguishable; however the fetched value is
returned whether or not a requested commit raises, so on the
commit-failure path the error does NOT surface as `None`. -/
theorem execute_and_fetch_error_signalling (env : DbEnv) (sql : PyStr)
    (params : List SqlValue) (commit : Bool) (cols : List PyStr)
    (rows : List SqlEntry)
    (hlog : countPlaceholders sql ≤ params.length) :
    ((env.connOk = false ∨ env.execRaises = true ∨ env.fetchOutcome = none
        ∨ env.fetchOutcome = some none) →
      (execute_and_fetch env sql params commit).1 = ExecResult.ret none)
    ∧ (env.connOk = true → env.execRaises = false →
        env.fetchOutcome = some (some rows) →
        (execute_and_fetch env sql params commit).1
          = ExecResult.ret (some rows))
    ∧ dict_fetchall (some cols) [] = some [] := by
  have hlog2 : ¬ (params.length < countPlaceholders sql) := by omega
  refine ⟨?_, ?_, rfl⟩
  · intro hdisj
    by_cases hc : env.connOk = true
    · rcases hdisj with h | h | h | h
      · rw [hc] at h; cases h
      · simp [execute_and_fetch, hc, hlog2, tryBody, h]
      · cases he : env.execRaises <;>
          simp [execute_and_fetch, hc, hlog2, tryBody, he, h]
      · cases he : env.execRaises <;>
          simp [execute_and_fetch, hc, hlog2, tryBody, he, h]
    · have hf : env.connOk = false := by
        revert hc; cases env.connOk <;> simp
      simp [execute_and_fetch, hf]
  · intro h1 h2 h3
    simp [execute_and_fetch, h1, hlog2, tryBody, h2, h3]

/-- C3 witness: execution raising surfaces as `None` at a concrete call. -/
theorem execute_and_fetch_error_signalling_witness :
    countPlaceholders (ofString "SELECT * FROM Tickets")
      ≤ List.length ([] : List SqlValue)
    ∧ (((⟨true, true, none, false⟩ : DbEnv).connOk = false
        ∨ (⟨true, true, none, false⟩ : DbEnv).execRaises = true
        ∨ (⟨true, true, none, false⟩ : DbEnv).fetchOutcome = none
        ∨ (⟨true, true, none, false⟩ : DbEnv).fetchOutcome = some none) →
      (execute_and_fetch ⟨true, true, none, false⟩
          (ofString "SELECT * FROM Tickets") [] false).1
        = ExecResult.ret none)
    ∧ ((⟨true, true, none, false⟩ : DbEnv).connOk = true →
        (⟨true, true, none, false⟩ : DbEnv).execRaises = false →
        (⟨true, true, none, false⟩ : DbEnv).fetchOutcome
          = some (some ([] : SqlResult)) →
        (execute_and_fetch ⟨true, true, none, false⟩
            (ofString "SELECT * FROM Tickets") [] false).1
          = ExecResult.ret (some ([] : SqlResult)))
    ∧ dict_fetchall (some [ofString "TicketID"]) [] = some [] :=
  ⟨by decide,
   (execute_and_fetch_error_signalling ⟨true, true, none, false⟩
      (ofString "SELECT * FROM Tickets") [] false [ofString "TicketID"] []
      (by decide)).1,
   (execute_and_fetch_error_signalling ⟨true, true, none, false⟩
      (ofString "SELECT * FROM Tickets") [] false [ofString "TicketID"] []
      (by decide)).2.1,
   (execute_and_fetch_error_signalling ⟨true, true, none, false⟩
      (ofString "SELECT * FROM Tickets") [] false [ofString "TicketID"] []
      (by decide)).2.2⟩

/-- C9 (amended): on every call that acquires a connection and whose
pre-`try` logging step does not raise (the parameters cover every `%s`
placeholder — true of all call sites in the repository), the cursor and
the connection are both closed before returning, whether execution, fetch
and commit succeed or raise, and no exception propagates; but when the
logging step raises, the exception propagates with the connection open
(see the counterexample). -/
theorem connection_release_on_guarded_paths (env : DbEnv) (sql : PyStr)
    (params : List SqlValue) (commit : Bool)
    (hconn : env.connOk = true)
    (hlog : countPlaceholders sql ≤ params.length) :
    (execute_and_fetch env sql params commit).2
      = [DbEvent.acquireConn, DbEvent.closeCursor, DbEvent.closeConn]
    ∧ (execute_and_fetch env sql params commit).1 ≠ ExecResult.exn := by
  have hlog2 : ¬ (params.length < countPlaceholders sql) := by omega
  constructor
  · simp [execute_and_fetch, hconn, hlog2]
  · simp [execute_and_fetch, hconn, hlog2]

/-- C9 (counterexample): a call whose SQL text has a `%s` placeholder not
covered by `params` raises inside `print_sql_string`, after the connection
was acquired and before the `try` block: the exception propagates and
neither close runs — a code path that leaves the connection open. -/
theorem log_step_leaks_connection :
    execute_and_fetch ⟨true, false, some (some []), false⟩
        (ofString "DELETE FROM Tickets WHERE TicketID = %s") [] false
      = (ExecResult.exn, [DbEvent.acquireConn])
    ∧ DbEvent.closeConn ∉ [DbEvent.acquireConn] := by
  refine ⟨by decide, by decide⟩

/-- C9 witness: with execution, fetch and commit all raising, both closes
still run and nothing propagates. -/
theorem connection_release_on_guarded_paths_witness :
    (⟨true, true, none, true⟩ : DbEnv).connOk = true
    ∧ countPlaceholders (ofString "SELECT * FROM Users")
        ≤ List.length ([] : List SqlValue)
    ∧ ((execute_and_fetch ⟨true, true, none, true⟩
          (ofString "SELECT * FROM Users") [] true).2
        = [DbEvent.acquireConn, DbEvent.closeCursor, DbEvent.closeConn]
      ∧ (execute_and_fetch ⟨true, true, none, true⟩
          (ofString "SELECT * FROM Users") [] true).1 ≠ ExecResult.exn) :=
  ⟨by decide, by decide,
   connection_release_on_guarded_paths ⟨true, true, none, true⟩
     (ofString "SELECT * FROM Users") [] true (by decide) (by decide)⟩
